import Mathlib

/-!
Verification of the host-liveness sweep of the rts-staus repository.

The scripts `ping.py`, `pingV2.py`, `pingV3.py`, `pingV7.py`, `pingv9.py`
share one `ping_host` routine (resolve with `socket.gethostbyname`, probe
with `ping3.ping`, classify by truthiness) and one collection loop
(`ThreadPoolExecutor` + `as_completed`).  `rts.py`/`rtsv7.py` classify the
text output of the `ping` command instead.  The network and the thread
scheduler are external, so we embed them as parameters: an `Env` says, for
each hostname, what resolution and probing do during this run, and the
completion order of `as_completed` is an explicit list (a permutation of
the submitted hostnames).  Machine floats returned by `ping3.ping` are
embedded as rationals; the only fact used about them is Python truthiness
(zero is falsy, any other value truthy), which transfers exactly.
-/

namespace RtsStatus

/-- Value returned by `ping3.ping` (src/ping.py line 12): the measured
round-trip time (a nonnegative float on success, embedded as a rational),
`None` on timeout, or the error sentinel `False`. -/
inductive PingResponse where
  | reply (rtt : ℚ)
  | timedOut
  | errFalse
deriving DecidableEq

/-- Python truthiness of the `ping3.ping` return value, as tested by
`'online' if response else 'offline'`: a float is truthy iff nonzero;
`None` and `False` are falsy. -/
def PingResponse.truthy : PingResponse → Bool
  | .reply rtt => decide (rtt ≠ 0)
  | .timedOut => false
  | .errFalse => false

/-- Behaviour of the network for one hostname during one run: what
`socket.gethostbyname` followed by `ping3.ping` do inside `ping_host`. -/
inductive ProbeBehavior where
  | resolves (ip : String) (resp : PingResponse)
  | resolveFails
  | raises (exc : String)
deriving DecidableEq

/-- The network during one run, one behaviour per hostname. -/
abbrev Env := String → ProbeBehavior

/-- The `(hostname, ip, status)` tuple returned by `ping_host`. -/
structure PingRow where
  hostname : String
  ip : String
  status : String
deriving DecidableEq, Repr

/-- Embedding of `ping_host` (src/ping.py lines 9-17): resolve, probe,
classify by truthiness; `socket.gaierror`/`HostUnknown` yield
`('N/A', 'offline')`; any other exception escapes the function. -/
def ping_host (env : Env) (hostname : String) : Except String PingRow :=
  match env hostname with
  | .resolves ip resp =>
      .ok ⟨hostname, ip, if resp.truthy then "online" else "offline"⟩
  | .resolveFails => .ok ⟨hostname, "N/A", "offline"⟩
  | .raises exc => .error exc

/-- Embedding of `ping_host` as in src/pingv9.py lines 13-21 (and
pingV7.py): identical to src/ping.py except that the placeholder written
to the ip field on resolution failure is `'Bad Host'` instead of `'N/A'`. -/
def ping_hostV9 (env : Env) (hostname : String) : Except String PingRow :=
  match env hostname with
  | .resolves ip resp =>
      .ok ⟨hostname, ip, if resp.truthy then "online" else "offline"⟩
  | .resolveFails => .ok ⟨hostname, "Bad Host", "offline"⟩
  | .raises exc => .error exc

/-- Mutable state of the collection loop of src/ping.py `main`
(lines 46-55): the `results` list and the messages passed to
`log_message` for futures that raised. -/
structure SweepState where
  results : List PingRow
  logs : List String
deriving DecidableEq, Repr

/-- One iteration of the `as_completed` loop of src/ping.py lines 49-55:
`future.result()` re-raises whatever `ping_host` raised; on success the
row is appended to `results`, on exception a diagnostic is logged and
nothing is appended. -/
def processOne (env : Env) (s : SweepState) (hostname : String) : SweepState :=
  match ping_host env hostname with
  | .ok r => { s with results := s.results ++ [r] }
  | .error exc =>
      { s with logs := s.logs ++ [hostname ++ " generated an exception: " ++ exc] }

/-- The collection loop of src/ping.py `main` (lines 46-55), run over the
completion order `order` of the submitted futures. -/
def sweep (env : Env) (order : List String) : SweepState :=
  order.foldl (processOne env) ⟨[], []⟩

/-- The diagnostic line src/ping.py line 55 logs for a hostname whose
probe task raised; `none` when the task returned normally. -/
def excLog (env : Env) (hostname : String) : Option String :=
  match ping_host env hostname with
  | .ok _ => none
  | .error exc => some (hostname ++ " generated an exception: " ++ exc)

/-- Whitespace characters removed by Python `str.strip()`. -/
def pyStripChar (c : Char) : Bool :=
  c = ' ' || c = '\t' || c = '\n' || c = '\x0b' || c = '\x0c' || c = '\r'

/-- Python `str.strip()`: drop leading and trailing whitespace. -/
def pyStrip (s : String) : String :=
  ⟨((s.data.dropWhile pyStripChar).reverse.dropWhile pyStripChar).reverse⟩

/-- Target Loader as the code has it (src/ping.py line 42, src/pingv9.py
line 100, `hostnames = [line.strip() for line in file]`): one Target per
line of the input file, stripped, empty lines included. -/
def loadTargets (lines : List String) : List String := lines.map pyStrip

/-- The loader as the specification words it (section 4.1): one Target per
NON-empty line, stripped, empty lines silently skipped.  Kept for
comparison with `loadTargets`. -/
def loadTargetsSpec (lines : List String) : List String :=
  (lines.map pyStrip).filter (fun s => s ≠ "")

/-- The four progress counters of src/pingv9.py `main` (lines 107-110):
`completed_count`, `online_count`, `offline_count`, `bad_host_count`. -/
structure Counters where
  completed : ℕ
  online : ℕ
  offline : ℕ
  bad_host : ℕ
deriving DecidableEq, Repr

/-- Embedding of `update_progress` of src/pingv9.py lines 112-123:
increment `completed_count`, then exactly one of the three status
counters, chosen by `if status == 'online' / elif ip == 'Bad Host' /
else`. -/
def update_progress (c : Counters) (status ip : String) : Counters :=
  let c1 : Counters := { c with completed := c.completed + 1 }
  if status = "online" then { c1 with online := c1.online + 1 }
  else if ip = "Bad Host" then { c1 with bad_host := c1.bad_host + 1 }
  else { c1 with offline := c1.offline + 1 }

/-- Mutable state of the collection loop of src/pingv9.py `main`
(lines 106-136): results, counters, and logged diagnostics. -/
structure V9State where
  results : List PingRow
  counters : Counters
  logs : List String
deriving DecidableEq, Repr

/-- One iteration of the `as_completed` loop of src/pingv9.py
lines 127-136.  On success the row is appended and
`update_progress(result[2], result[1])` runs; on exception a diagnostic
is logged; in BOTH cases the `finally` clause then runs
`update_progress('offline', 'Bad Host')` a further time. -/
def processOneV9 (env : Env) (s : V9State) (hostname : String) : V9State :=
  match ping_hostV9 env hostname with
  | .ok r =>
      let s1 : V9State :=
        { s with results := s.results ++ [r],
                 counters := update_progress s.counters r.status r.ip }
      { s1 with counters := update_progress s1.counters "offline" "Bad Host" }
  | .error exc =>
      let s1 : V9State :=
        { s with logs := s.logs ++ [hostname ++ " generated an exception: " ++ exc] }
      { s1 with counters := update_progress s1.counters "offline" "Bad Host" }

/-- The collection loop of src/pingv9.py `main` (lines 125-136) over the
completion order `order`; counters start at zero. -/
def sweepV9 (env : Env) (order : List String) : V9State :=
  order.foldl (processOneV9 env) ⟨[], ⟨0, 0, 0, 0⟩, []⟩

/-- Captured stdout/stderr of the `ping` subprocess of src/rtsv7.py
line 15. -/
structure CmdResult where
  stdout : String
  stderr : String
deriving DecidableEq, Repr

/-- Does `pat` occur as a contiguous block of `cs`? -/
def containsSubAux (pat : List Char) : List Char → Bool
  | [] => pat.isEmpty
  | c :: cs => List.isPrefixOf pat (c :: cs) || containsSubAux pat cs

/-- Python `in` on strings: substring containment. -/
def containsSub (pat s : String) : Bool := containsSubAux pat.data s.data

/-- The `{'IP': ..., 'Status': ...}` dict returned by src/rtsv7.py
`ping`. -/
structure RtsRow where
  ip : String
  status : String
deriving DecidableEq, Repr

/-- Embedding of `ping` of src/rtsv7.py lines 14-26: classify by
substring matching on the subprocess output. -/
def ping (out : CmdResult) (ip : String) : RtsRow :=
  if containsSub ("Reply from ") out.stdout then ⟨ip, "Online"⟩
  else if containsSub ("could not find host") out.stderr then ⟨ip, "Bad hostname"⟩
  else if containsSub ("Request timed out") out.stdout then ⟨ip, "Request timeout"⟩
  else ⟨ip, "Offline"⟩

/-- Embedding of `create_excel` of src/ping.py lines 19-28 (identical in
pingV2.py, pingV3.py, pingV7.py, pingv9.py): the literal header row, then
one row per element of `data`, in order. -/
def create_excel (data : List PingRow) : List (List String) :=
  ["HostName", "IP", "Online/Offline"] :: data.map (fun r => [r.hostname, r.ip, r.status])

/-- Embedding of the CSV writing of src/rts.py lines 18-23 and
src/rtsv7.py lines 36-41: `csv.DictWriter` with
`fieldnames = ['IP', 'Status']`, header row then one row per result. -/
def rts_report (results : List RtsRow) : List (List String) :=
  ["IP", "Status"] :: results.map (fun r => [r.ip, r.status])

/-- The tabular report a run of src/ping.py `main` emits: `create_excel`
applied to the collected results (line 57), which are in completion
order. -/
def mainReport (env : Env) (order : List String) : List (List String) :=
  create_excel (sweep env order).results

/-- Retention window constant of src/pingv9.py line 10. -/
def LOG_RETENTION_DAYS : ℕ := 7

/-- A Python `datetime` value at second precision, as produced by
`datetime.strptime(..., '%Y-%m-%d %H:%M:%S')`. -/
structure DateTime where
  year : ℕ
  month : ℕ
  day : ℕ
  hour : ℕ
  minute : ℕ
  second : ℕ
deriving DecidableEq, Repr

/-- Gregorian leap-year rule used by Python `datetime`. -/
def isLeapYear (y : ℕ) : Bool :=
  y % 4 == 0 && (y % 100 != 0 || y % 400 == 0)

/-- Number of days in a month of a given year. -/
def monthDays (y m : ℕ) : ℕ :=
  if m = 2 then (if isLeapYear y then 29 else 28)
  else if m = 4 ∨ m = 6 ∨ m = 9 ∨ m = 11 then 30
  else 31

/-- Days in the months of year `y` strictly before month `m`. -/
def daysBeforeMonth (y m : ℕ) : ℕ :=
  (List.range (m - 1)).foldl (fun acc i => acc + monthDays y (i + 1)) 0

/-- Proleptic-Gregorian ordinal of a date, as in Python
`datetime.toordinal` (day 1 is 0001-01-01). -/
def toOrdinal (y m d : ℕ) : ℕ :=
  365 * (y - 1) + (y - 1) / 4 - (y - 1) / 100 + (y - 1) / 400 + daysBeforeMonth y m + d

/-- A `DateTime` as a count of seconds, so that Python `datetime`
subtraction becomes integer subtraction of this measure. -/
def DateTime.toSeconds (t : DateTime) : ℕ :=
  toOrdinal t.year t.month t.day * 86400 + t.hour * 3600 + t.minute * 60 + t.second

/-- Python `entry.split(' - ')[0]` (src/pingv9.py line 60): the characters
of `entry` before the first occurrence of `' - '`, the whole of `entry`
when the separator does not occur. -/
def takeUntilSep : List Char → List Char
  | [] => []
  | c :: cs =>
      if List.isPrefixOf ((" - ").data) (c :: cs) then []
      else c :: takeUntilSep cs

/-- Python `str.split(sep)` for a one-character separator. -/
def splitOnChar (sep : Char) : List Char → List (List Char)
  | [] => [[]]
  | c :: cs =>
      if c = sep then [] :: splitOnChar sep cs
      else
        match splitOnChar sep cs with
        | [] => [[c]]
        | g :: gs => (c :: g) :: gs

/-- Value of a nonempty all-digit field of at most `maxLen` digits, as
matched by a `strptime` numeric directive; `none` otherwise. -/
def digitsVal? (cs : List Char) (maxLen : ℕ) : Option ℕ :=
  if cs ≠ [] ∧ cs.length ≤ maxLen ∧ cs.all Char.isDigit then
    some (cs.foldl (fun acc c => acc * 10 + (c.toNat - 48)) 0)
  else none

/-- Embedding of `datetime.strptime(s, '%Y-%m-%d %H:%M:%S')`
(src/pingv9.py line 60): split the candidate into date and time parts,
read the six numeric fields, and validate ranges as `datetime` does;
`none` plays the role of `ValueError`. -/
def parseDT (cs : List Char) : Option DateTime :=
  match splitOnChar ' ' cs with
  | [datePart, timePart] =>
      match splitOnChar '-' datePart, splitOnChar ':' timePart with
      | [ys, mos, ds], [hs, mis, ss] =>
          match digitsVal? ys 4, digitsVal? mos 2, digitsVal? ds 2,
                digitsVal? hs 2, digitsVal? mis 2, digitsVal? ss 2 with
          | some y, some mo, some d, some h, some mi, some sec =>
              if 1 ≤ y ∧ 1 ≤ mo ∧ mo ≤ 12 ∧ 1 ≤ d ∧ d ≤ monthDays y mo ∧
                 h ≤ 23 ∧ mi ≤ 59 ∧ sec ≤ 59 then
                some ⟨y, mo, d, h, mi, sec⟩
              else none
          | _, _, _, _, _, _ => none
      | _, _ => none
  | _ => none

/-- The retention test of src/pingv9.py lines 58-65 on one log line:
parse the leading timestamp, keep the line iff
`current_time - entry_time < timedelta(days=LOG_RETENTION_DAYS)`;
a line whose prefix does not parse is dropped. -/
def keepEntry (now : DateTime) (entry : String) : Bool :=
  match parseDT (takeUntilSep entry.data) with
  | some t =>
      decide ((now.toSeconds : ℤ) - (t.toSeconds : ℤ) <
        (LOG_RETENTION_DAYS : ℤ) * 86400)
  | none => false

/-- Embedding of `purge_old_logs` of src/pingv9.py lines 47-69: keep
exactly the lines whose parsed leading timestamp is within the retention
window, in order, and rewrite the file with them. -/
def purge_old_logs (now : DateTime) (lines : List String) : List String :=
  lines.filter (keepEntry now)

/-- Two-digit zero-padded decimal rendering, as `strftime` `%m` etc. -/
def pad2 (n : ℕ) : String := if n < 10 then "0" ++ toString n else toString n

/-- Four-digit zero-padded decimal rendering, as `strftime` `%Y`. -/
def pad4 (n : ℕ) : String :=
  if n < 10 then "000" ++ toString n
  else if n < 100 then "00" ++ toString n
  else if n < 1000 then "0" ++ toString n
  else toString n

/-- Timestamp rendering `datetime.now().strftime('%Y-%m-%d %H:%M:%S')`
of src/pingv9.py line 35. -/
def fmtDT (t : DateTime) : String :=
  pad4 t.year ++ "-" ++ pad2 t.month ++ "-" ++ pad2 t.day ++ " " ++
  pad2 t.hour ++ ":" ++ pad2 t.minute ++ ":" ++ pad2 t.second

/-- Embedding of `log_message` of src/pingv9.py lines 34-45: append the
timestamped entry (with its trailing newline, as `readlines` will later
see it), then run `purge_old_logs` relative to `now`, the time of the
append. -/
def log_message (now : DateTime) (message : String) (log : List String) : List String :=
  purge_old_logs now (log ++ [fmtDT now ++ " - " ++ message ++ "\n"])

/-- Embedding of `log_message` of src/ping.py lines 30-33: append only,
no retention pruning; the timestamp string is `ts`. -/
def log_messagePing (ts message : String) (log : List String) : List String :=
  log ++ [ts ++ " - " ++ message ++ "\n"]

/-- Effect of one run of src/ping.py `main` on the log file, given the
log's `prior` content and the (timestamp, message) pairs the run logs:
line 37 `open(log_file, 'w').close()` truncates the file to empty before
any append, so `prior` is discarded and only the run's own entries
remain. -/
def pingMainLog (_prior : List String) (entries : List (String × String)) : List String :=
  entries.foldl (fun l e => log_messagePing e.1 e.2 l) ([] : List String)

/-- A network where every probe task raises an unexpected exception. -/
def envRaise : Env := fun _ => .raises ("perm denied")

/-- A network where every hostname resolves to 10.0.0.1 and the probe
measures a one-second round trip. -/
def envOnline : Env := fun _ => .resolves ("10.0.0.1") (.reply 1)

/-- A network where no hostname resolves. -/
def envBadHost : Env := fun _ => .resolveFails

/-- The moment playing `datetime.now()` in the log-retention scenario. -/
def now6 : DateTime := ⟨2026, 10, 12, 9, 0, 0⟩

/-- Log entry ten days older than `now6`. -/
def e10d : String := "2026-10-02 09:00:00 - ten days old\n"

/-- Log entry eight days older than `now6`. -/
def e8d : String := "2026-10-04 09:00:00 - eight days old\n"

/-- Log entry one day older than `now6`. -/
def e1d : String := "2026-10-11 09:00:00 - one day old\n"

/-- A log line from a previous run, one day older than `now6`, so well
within the retention window. -/
def oldLine : String := "2026-10-11 09:00:00 - previous run\n"

/-- Running the collection loop from any intermediate state appends, in
completion order, one result row per normally returning task and one
diagnostic line per raising task. -/
theorem sweep_foldl (env : Env) (order : List String) (s : SweepState) :
    order.foldl (processOne env) s =
      ⟨s.results ++ order.filterMap (fun h => (ping_host env h).toOption),
       s.logs ++ order.filterMap (excLog env)⟩ := by
  induction order generalizing s with
  | nil => simp
  | cons h t ih =>
      rw [List.foldl_cons, ih]
      cases hp : ping_host env h with
      | ok r => simp [processOne, hp, excLog, Except.toOption]
      | error e => simp [processOne, hp, excLog, Except.toOption]

/-- The results of one run are exactly the rows of the normally
returning tasks, in completion order. -/
theorem sweep_results_eq (env : Env) (order : List String) :
    (sweep env order).results = order.filterMap (fun h => (ping_host env h).toOption) := by
  simp [sweep, sweep_foldl]

/-- The diagnostics logged by one run are exactly the lines for the
raising tasks, in completion order. -/
theorem sweep_logs_eq (env : Env) (order : List String) :
    (sweep env order).logs = order.filterMap (excLog env) := by
  simp [sweep, sweep_foldl]

/-- Length of a `filterMap` counts the elements mapped to `some`. -/
theorem length_filterMap_count {α β : Type} (f : α → Option β) (l : List α) :
    (l.filterMap f).length = l.countP (fun a => (f a).isSome) := by
  induction l with
  | nil => rfl
  | cons a t ih => cases h : f a <;> simp [h, List.countP_cons, ih]

/-- Claim C1 fails as it is stated: for the one-element input whose probe
task raises, the run produces zero ProbeResults, not one — the raising
task is dropped from the result collection (src/ping.py lines 49-55). -/
theorem c1_completeness_cex :
    (sweep envRaise ["h1"]).results.length ≠ (["h1"] : List String).length := by
  decide

/-- Claim C1 (amended): provided no Target's probe task raises an
unexpected exception, one run of the Coordinator over any completion
order of the N submitted Targets produces exactly N ProbeResults, one
per Target; a Target whose task raises is logged and dropped, so in
general the count is the number of non-raising Targets. -/
theorem c1_completeness (env : Env) (hostnames order : List String)
    (hperm : order.Perm hostnames)
    (hok : ∀ h ∈ hostnames, ∀ exc, env h ≠ .raises exc) :
    (sweep env order).results.length = hostnames.length := by
  rw [sweep_results_eq, length_filterMap_count, hperm.countP_eq]
  apply List.countP_eq_length.mpr
  intro h hm
  cases henv : env h with
  | resolves ip resp => simp [ping_host, henv, Except.toOption]
  | resolveFails => simp [ping_host, henv, Except.toOption]
  | raises exc => exact absurd henv (hok h hm exc)

/-- Witness for `c1_completeness`: a two-Target run, completed in
reverse submission order, with every probe replying. -/
theorem c1_completeness_witness :
    (["b", "a"] : List String).Perm ["a", "b"] ∧
    (∀ h ∈ (["a", "b"] : List String), ∀ exc, envOnline h ≠ .raises exc) ∧
    (sweep envOnline ["b", "a"]).results.length = (["a", "b"] : List String).length :=
  ⟨by decide, fun h _ exc => by simp [envOnline],
   c1_completeness envOnline ["a", "b"] ["b", "a"] (by decide)
     (fun h _ exc => by simp [envOnline])⟩

/-- Claim C3 fails as it is stated: a Target whose probe task raises is
not classified Offline — the run leaves no row at all for it in the
results (though its error text is logged). -/
theorem c3_probe_error_cex :
    (sweep envRaise ["h1"]).results = [] ∧
    "h1 generated an exception: perm denied" ∈ (sweep envRaise ["h1"]).logs := by
  decide

/-- Claim C3 (amended): a Target whose probe raises is absorbed — the
original error text is written to the log, every remaining Target is
processed exactly as if the raising Target were absent, and no exception
propagates out of the sweep; but the Target is dropped from the result
collection rather than classified Offline. -/
theorem c3_probe_error (env : Env) (pre post : List String) (h exc : String)
    (hr : env h = .raises exc) :
    (sweep env (pre ++ h :: post)).results = (sweep env (pre ++ post)).results ∧
    (h ++ " generated an exception: " ++ exc) ∈ (sweep env (pre ++ h :: post)).logs := by
  constructor
  · rw [sweep_results_eq, sweep_results_eq]
    simp [List.filterMap_append, ping_host, hr, Except.toOption]
  · rw [sweep_logs_eq]
    exact List.mem_filterMap.mpr ⟨h, by simp, by simp [excLog, ping_host, hr]⟩

/-- Witness for `c3_probe_error`: the middle Target of three raises. -/
theorem c3_probe_error_witness :
    envRaise ("h1") = .raises ("perm denied") ∧
    ((sweep envRaise (["a"] ++ "h1" :: ["b"])).results =
        (sweep envRaise (["a"] ++ ["b"])).results ∧
      ("h1" ++ " generated an exception: " ++ "perm denied") ∈
        (sweep envRaise (["a"] ++ "h1" :: ["b"])).logs) :=
  ⟨rfl, c3_probe_error envRaise ["a"] ["b"] ("h1") ("perm denied") rfl⟩

/-- Claim C2 fails as it is stated: when resolution fails, `ping_host`
returns the row ('h1', 'N/A', 'offline') — the status is the literal
'offline' (lowercase), not BadHost and not Offline; no BadHost status
exists in the ping3-based variants, which record resolution failure in
the ip field instead. -/
theorem c2_taxonomy_cex :
    ping_host envBadHost ("h1") = .ok ⟨"h1", "N/A", "offline"⟩ ∧
    ("offline" : String) ≠ "BadHost" ∧ ("offline" : String) ≠ "Offline" :=
  ⟨rfl, by decide, by decide⟩

/-- Claim C2 (amended): every row `ping_host` returns carries exactly one
status, drawn from the two-label taxonomy online/offline (lowercase, never
BadHost); resolution failure is marked through the ip field — provided a
genuine resolved address is never the literal 'N/A', the row has
ip = 'N/A' iff resolution failed, and in that case the status is
'offline'.  The rtsv7.py variant instead draws its status from the four
literals Online / Bad hostname / Request timeout / Offline. -/
theorem c2_taxonomy (env : Env) (h : String) (row : PingRow)
    (hip : ∀ ip resp, env h = .resolves ip resp → ip ≠ "N/A")
    (hok : ping_host env h = .ok row) :
    ((row.status = "online" ∨ row.status = "offline") ∧
     row.status ≠ "BadHost" ∧
     (row.ip = "N/A" ↔ env h = .resolveFails) ∧
     (env h = .resolveFails → row.status = "offline")) ∧
    (∀ out ip, (ping out ip).status = "Online" ∨ (ping out ip).status = "Bad hostname" ∨
      (ping out ip).status = "Request timeout" ∨ (ping out ip).status = "Offline") := by
  constructor
  · cases henv : env h with
    | resolves ip resp =>
        simp only [ping_host, henv, Except.ok.injEq] at hok
        subst hok
        refine ⟨?_, ?_, ?_, ?_⟩
        · cases h2 : resp.truthy <;> simp [h2]
        · cases h2 : resp.truthy <;> simp [h2]
        · constructor
          · intro hc
            exact absurd hc (hip ip resp henv)
          · intro hc
            exact absurd hc (by simp)
        · intro hc
          exact absurd hc (by simp)
    | resolveFails =>
        simp only [ping_host, henv, Except.ok.injEq] at hok
        subst hok
        refine ⟨Or.inr rfl, (by decide : ("offline" : String) ≠ "BadHost"), ?_, fun _ => rfl⟩
        simp [henv]
    | raises exc => simp [ping_host, henv] at hok
  · intro out ip
    unfold ping
    split
    · simp
    · split
      · simp
      · split
        · simp
        · simp

/-- Witness for `c2_taxonomy`: a hostname that does not resolve. -/
theorem c2_taxonomy_witness :
    (∀ ip resp, envBadHost ("h1") = .resolves ip resp → ip ≠ "N/A") ∧
    ping_host envBadHost ("h1") = .ok ⟨"h1", "N/A", "offline"⟩ ∧
    ((((⟨"h1", "N/A", "offline"⟩ : PingRow).status = "online" ∨
        (⟨"h1", "N/A", "offline"⟩ : PingRow).status = "offline") ∧
      (⟨"h1", "N/A", "offline"⟩ : PingRow).status ≠ "BadHost" ∧
      ((⟨"h1", "N/A", "offline"⟩ : PingRow).ip = "N/A" ↔ envBadHost ("h1") = .resolveFails) ∧
      (envBadHost ("h1") = .resolveFails →
        (⟨"h1", "N/A", "offline"⟩ : PingRow).status = "offline")) ∧
     (∀ out ip, (ping out ip).status = "Online" ∨ (ping out ip).status = "Bad hostname" ∨
       (ping out ip).status = "Request timeout" ∨ (ping out ip).status = "Offline")) :=
  ⟨fun ip resp hc => by simp [envBadHost] at hc, rfl,
   c2_taxonomy envBadHost ("h1") ⟨"h1", "N/A", "offline"⟩
     (fun ip resp hc => by simp [envBadHost] at hc) rfl⟩

/-- Claim C4: the code contradicts it on the one-Target run whose probe
replies — src/pingv9.py line 136 runs `update_progress('offline',
'Bad Host')` in a `finally` clause, after line 132 already counted the
successful result, so the final counters are completed = 2, online = 1,
offline = 0, bad_host = 1 for a single Target with a single (online)
ProbeResult: online + offline + bad_host = 2 ≠ 1 = total, and
bad_host = 1 though no ProbeResult has the Bad Host marker. -/
theorem c4_run_summary_bug :
    (sweepV9 envOnline ["h1"]).results = [⟨"h1", "10.0.0.1", "online"⟩] ∧
    (sweepV9 envOnline ["h1"]).counters = ⟨2, 1, 0, 1⟩ ∧
    (sweepV9 envOnline ["h1"]).counters.online +
        (sweepV9 envOnline ["h1"]).counters.offline +
        (sweepV9 envOnline ["h1"]).counters.bad_host ≠
      (["h1"] : List String).length := by
  decide

/-- Claim C5 fails as it is stated: the loader does not skip empty
lines — a file whose single line is whitespace yields one Target (with
empty name) where the claim requires zero, so a file with zero non-empty
lines does not give total = 0. -/
theorem c5_loader_cex :
    loadTargets ["   "] = [""] ∧
    loadTargets ["   "] ≠ loadTargetsSpec ["   "] ∧
    (loadTargets ["   "]).length ≠ 0 := by
  decide

/-- Claim C5 (amended): the loader produces exactly one Target per line
of the input, each with leading and trailing whitespace stripped, and
does NOT skip empty lines; an input with zero lines yields zero Targets,
and a run over it emits the header-only report. -/
theorem c5_loader (lines : List String) (env : Env) :
    (loadTargets lines).length = lines.length ∧
    (∀ s ∈ loadTargets lines, ∃ l ∈ lines, s = pyStrip l) ∧
    loadTargets ([] : List String) = [] ∧
    mainReport env (loadTargets ([] : List String)) =
      [["HostName", "IP", "Online/Offline"]] := by
  refine ⟨List.length_map .., ?_, rfl, rfl⟩
  intro s hs
  rcases List.mem_map.mp hs with ⟨l, hl, rfl⟩
  exact ⟨l, hl, rfl⟩

/-- Witness for `c5_loader`: a two-line input, one line blank. -/
theorem c5_loader_witness :
    (loadTargets [" a ", "  "]).length = ([" a ", "  "] : List String).length ∧
    (∀ s ∈ loadTargets [" a ", "  "], ∃ l ∈ ([" a ", "  "] : List String), s = pyStrip l) ∧
    loadTargets ([] : List String) = [] ∧
    mainReport envOnline (loadTargets ([] : List String)) =
      [["HostName", "IP", "Online/Offline"]] :=
  c5_loader [" a ", "  "] envOnline

/-- A log line survives the retention test iff its leading timestamp
parses and the line is less than the retention window old at the time of
the test. -/
theorem keepEntry_iff (now : DateTime) (entry : String) :
    keepEntry now entry = true ↔
      ∃ t, parseDT (takeUntilSep entry.data) = some t ∧
        (now.toSeconds : ℤ) - (t.toSeconds : ℤ) < (LOG_RETENTION_DAYS : ℤ) * 86400 := by
  unfold keepEntry
  cases hp : parseDT (takeUntilSep entry.data) with
  | none => simp [hp]
  | some t => simp [hp]

/-- Claim C6: on every append, src/pingv9.py's `log_message` prunes the
log relative to the time of the append — a pre-existing line survives iff
its leading `YYYY-MM-DD HH:MM:SS` timestamp parses and is less than seven
days old (unparsable prefixes are silently dropped); in the claim's
scenario, of the entries ten, eight and one days old exactly the
one-day-old entry plus the newly appended entry remain. -/
theorem c6_log_retention :
    (log_message now6 ("new entry") [e10d, e8d, e1d] =
      [e1d, "2026-10-12 09:00:00 - new entry\n"]) ∧
    (∀ now msg log entry, entry ∈ log →
      (entry ∈ log_message now msg log ↔
        ∃ t, parseDT (takeUntilSep entry.data) = some t ∧
          (now.toSeconds : ℤ) - (t.toSeconds : ℤ) < (LOG_RETENTION_DAYS : ℤ) * 86400)) := by
  constructor
  · decide
  · intro now msg log entry hmem
    constructor
    · intro hin
      have hf : entry ∈ (log ++ [fmtDT now ++ " - " ++ msg ++ "\n"]).filter (keepEntry now) :=
        hin
      exact (keepEntry_iff now entry).mp (List.mem_filter.mp hf).2
    · intro hex
      show entry ∈ (log ++ [fmtDT now ++ " - " ++ msg ++ "\n"]).filter (keepEntry now)
      exact List.mem_filter.mpr
        ⟨List.mem_append_left _ hmem, (keepEntry_iff now entry).mpr hex⟩

/-- Witness for `c6_log_retention`: the one-day-old entry of the
scenario is in the log and is retained by an append at `now6`. -/
theorem c6_log_retention_witness :
    e1d ∈ [e1d] ∧
    (e1d ∈ log_message now6 ("x") [e1d] ↔
      ∃ t, parseDT (takeUntilSep e1d.data) = some t ∧
        (now6.toSeconds : ℤ) - (t.toSeconds : ℤ) < (LOG_RETENTION_DAYS : ℤ) * 86400) :=
  ⟨by decide, c6_log_retention.2 now6 ("x") [e1d] e1d (by decide)⟩

/-- Claim C7 fails as it is stated: the CSV report of src/rts.py and
src/rtsv7.py has the two columns IP and Status, not three; and an
openpyxl-variant run whose only Target's probe raises emits the header
with no data row, not one row per Target. -/
theorem c7_report_shape_cex :
    (rts_report [⟨"10.0.0.1", "Online"⟩]).head? = some ["IP", "Status"] ∧
    (["IP", "Status"] : List String).length ≠ 3 ∧
    (mainReport envRaise ["h1"]).length ≠ 1 + (["h1"] : List String).length := by
  decide

/-- Claim C7 (amended): in the openpyxl variants the report is the
literal header row HostName, IP, Online/Offline followed by one
three-cell row per collected result, in completion order — so one row
per Target whose probe task returned, none for a Target whose task
raised; the src/rts.py and src/rtsv7.py CSV variants instead emit the
two columns IP, Status. -/
theorem c7_report_shape (env : Env) (order : List String) (rows : List RtsRow) :
    (mainReport env order).head? = some ["HostName", "IP", "Online/Offline"] ∧
    (mainReport env order).all (fun row => row.length == 3) = true ∧
    (mainReport env order).tail =
      ((sweep env order).results).map (fun r => [r.hostname, r.ip, r.status]) ∧
    (mainReport env order).length =
      1 + order.countP (fun h => (Except.toOption (ping_host env h)).isSome) ∧
    (rts_report rows).head? = some ["IP", "Status"] ∧
    (rts_report rows).all (fun row => row.length == 2) = true := by
  refine ⟨rfl, ?_, rfl, ?_, rfl, ?_⟩
  · rw [List.all_eq_true]
    intro row hr
    rcases List.mem_cons.mp hr with rfl | hr2
    · rfl
    · rcases List.mem_map.mp hr2 with ⟨r, _, rfl⟩
      rfl
  · show (create_excel (sweep env order).results).length = _
    rw [create_excel, List.length_cons, List.length_map, sweep_results_eq,
      length_filterMap_count]
    omega
  · rw [List.all_eq_true]
    intro row hr
    rcases List.mem_cons.mp hr with rfl | hr2
    · rfl
    · rcases List.mem_map.mp hr2 with ⟨r, _, rfl⟩
      rfl

/-- Claim C8 fails as it is stated: src/ping.py line 37 truncates the
log file at start-up, so a prior line well within the retention window
is gone after the run. -/
theorem c8_append_only_cex :
    keepEntry now6 oldLine = true ∧
    oldLine ∉ pingMainLog [oldLine]
      [("2026-10-12 09:00:00", "Starting to ping 1 hostnames...")] := by
  decide

/-- Claim C8 (amended): src/pingv9.py's log is append-only across
runs — every prior line within the retention window survives an append,
and the append leaves exactly the retained prior lines, in order,
followed by the new entry when it is itself retained; but src/ping.py
(like pingV2/V3/V7) truncates the log file at start-up, so only the
pingv9 variant preserves prior runs' log content. -/
theorem c8_append_only (now : DateTime) (msg : String) (prior : List String) :
    (∀ l ∈ prior, keepEntry now l = true → l ∈ log_message now msg prior) ∧
    log_message now msg prior =
      prior.filter (keepEntry now) ++
        (if keepEntry now (fmtDT now ++ " - " ++ msg ++ "\n") then
          [fmtDT now ++ " - " ++ msg ++ "\n"] else []) := by
  constructor
  · intro l hl hk
    show l ∈ (prior ++ [fmtDT now ++ " - " ++ msg ++ "\n"]).filter (keepEntry now)
    exact List.mem_filter.mpr ⟨List.mem_append_left _ hl, hk⟩
  · show (prior ++ [fmtDT now ++ " - " ++ msg ++ "\n"]).filter (keepEntry now) = _
    rw [List.filter_append]
    cases hk : keepEntry now (fmtDT now ++ " - " ++ msg ++ "\n") <;>
      simp [List.filter, hk]

/-- Witness for `c8_append_only`: the one-day-old line survives an
append at `now6`. -/
theorem c8_append_only_witness :
    keepEntry now6 e1d = true ∧ e1d ∈ log_message now6 ("msg") [e1d] :=
  ⟨by decide, (c8_append_only now6 ("msg") [e1d]).1 e1d (by decide) (by decide)⟩

/-- Claim C10: truthiness-based classification in the ping3-based
variants — for a Target that resolves, the status is 'online' iff the
value `ping3.ping` returned is truthy (in src/ping.py and in
src/pingv9.py alike); a reply measured at exactly 0.0 and the False
error sentinel are both falsy and classified 'offline', so for
nonnegative measured latencies 'online' holds iff the latency is
strictly positive. -/
theorem c10_truthiness (env : Env) (h ip : String) (resp : PingResponse) (rtt : ℚ)
    (henv : env h = .resolves ip resp) :
    (ping_host env h = .ok ⟨h, ip, "online"⟩ ↔ resp.truthy = true) ∧
    (ping_hostV9 env h = .ok ⟨h, ip, "online"⟩ ↔ resp.truthy = true) ∧
    (resp = .reply 0 → ping_host env h = .ok ⟨h, ip, "offline"⟩) ∧
    (resp = .errFalse → ping_host env h = .ok ⟨h, ip, "offline"⟩) ∧
    (resp = .reply rtt → 0 ≤ rtt →
      (ping_host env h = .ok ⟨h, ip, "online"⟩ ↔ 0 < rtt)) := by
  refine ⟨?_, ?_, ?_, ?_, ?_⟩
  · cases h2 : resp.truthy <;> simp [ping_host, henv, h2]
  · cases h2 : resp.truthy <;> simp [ping_hostV9, henv, h2]
  · rintro rfl
    simp [ping_host, henv, PingResponse.truthy]
  · rintro rfl
    simp [ping_host, henv, PingResponse.truthy]
  · rintro rfl hnn
    by_cases hz : rtt = 0
    · subst hz
      simp [ping_host, henv, PingResponse.truthy]
    · simp only [ping_host, henv, PingResponse.truthy, hz, decide_not]
      simp [hz]
      exact lt_of_le_of_ne hnn (Ne.symm hz)

/-- Witness for `c10_truthiness`: a hostname resolving to 10.0.0.1 whose
probe measures a one-second round trip. -/
theorem c10_truthiness_witness :
    envOnline ("a") = .resolves ("10.0.0.1") (.reply 1) ∧
    ((ping_host envOnline ("a") = .ok ⟨"a", "10.0.0.1", "online"⟩ ↔
        (PingResponse.reply 1).truthy = true) ∧
     (ping_hostV9 envOnline ("a") = .ok ⟨"a", "10.0.0.1", "online"⟩ ↔
        (PingResponse.reply 1).truthy = true) ∧
     (PingResponse.reply 1 = .reply 0 →
        ping_host envOnline ("a") = .ok ⟨"a", "10.0.0.1", "offline"⟩) ∧
     (PingResponse.reply 1 = .errFalse →
        ping_host envOnline ("a") = .ok ⟨"a", "10.0.0.1", "offline"⟩) ∧
     (PingResponse.reply 1 = .reply 1 → (0 : ℚ) ≤ 1 →
        (ping_host envOnline ("a") = .ok ⟨"a", "10.0.0.1", "online"⟩ ↔ (0 : ℚ) < 1))) :=
  ⟨rfl, c10_truthiness envOnline ("a") ("10.0.0.1") (.reply 1) 1 rfl⟩

end RtsStatus
